import Mathlib

/-!
Shallow embedding of the JobTrends LinkedIn scraper's fetch-retry-paginate
pipeline, translated from the repository's Python source:

  * `src/linkedin_scraper/utils/request_handler.py`  (RequestHandler)
  * `src/linkedin_scraper/models/job_posting.py`     (JobPosting)
  * `src/linkedin_scraper/scrapers/job_list_scraper.py`  (JobListScraper)
  * `src/linkedin_scraper/scrapers/job_details_scraper.py` (JobDetailsScraper)
  * `src/linkedin_scraper/scrapers/linkedin_scraper.py`  (LinkedInScraper)
  * `src/linkedin_scraper/core/orchestrator.py`      (ScrapingOrchestrator)
  * `src/linkedin_scraper/dashboard/dashboard_functions.py`

Python `None` becomes `Option.none`; a `requests.Response` is represented by
its status code; network nondeterminism is an explicit environment mapping a
trial index (or a URL) to an outcome; `time.sleep` calls are reified as the
list of slept durations; file writes are reified as the returned file state.
-/

/-! ## Resilient request client (`utils/request_handler.py`) -/

/-- One outcome of an HTTP attempt: either a response carrying a status
code, or a network-level exception (`requests.RequestException`). -/
inductive ReqOutcome
  | resp (status : Nat)
  | exc
deriving DecidableEq

/-- `RequestHandler.handle_response` (request_handler.py lines 41-74).
It returns `some true` on status 200, `some false` when a retry is wanted
(after sleeping), and `none` once retries are exhausted.  The second
component reifies the `time.sleep` calls performed: status 429 sleeps
`rate_limit_delay * current_trial`, any other non-200 status sleeps
`base_delay * current_trial`. -/
def handle_response (max_retries base_delay rate_limit_delay status current_trial : Nat) :
    Option Bool × List Nat :=
  if status = 200 then (some true, [])
  else if current_trial < max_retries then
    if status = 429 then (some false, [rate_limit_delay * current_trial])
    else (some false, [base_delay * current_trial])
  else (none, [])

/-- `RequestHandler.make_request` (request_handler.py lines 76-125).
`env t` is the outcome of the HTTP attempt made at trial index `t`.
Returns the status of the successful response (or `none` when retries are
exhausted) paired with the number of HTTP attempts performed.  On
`handle_response = some false` it recurses with `current_trial + 1`; on a
network exception it retries the same way while `current_trial < max_retries`. -/
def make_request (env : Nat → ReqOutcome) (max_retries base_delay rate_limit_delay : Nat)
    (current_trial : Nat) : Option Nat × Nat :=
  match env current_trial with
  | .resp s =>
    match h : handle_response max_retries base_delay rate_limit_delay s current_trial with
    | (some true, _) => (some s, 1)
    | (some false, _) =>
      let r := make_request env max_retries base_delay rate_limit_delay (current_trial + 1)
      (r.1, r.2 + 1)
    | (none, _) => (none, 1)
  | .exc =>
    if _h : current_trial < max_retries then
      let r := make_request env max_retries base_delay rate_limit_delay (current_trial + 1)
      (r.1, r.2 + 1)
    else (none, 1)
termination_by max_retries + 1 - current_trial
decreasing_by
  · unfold handle_response at h
    split at h
    · simp at h
    · split at h
      · omega
      · simp at h
  · omega

/-! ## Job posting record (`models/job_posting.py`) -/

/-- `JobPosting` (job_posting.py lines 9-75): one job record with all
eighteen optional fields.  Python stores every field as a possibly-`None`
string; absent values are `none`. -/
structure JobPosting where
  title : Option String
  company : Option String
  location : Option String
  date_posted : Option String
  job_link : Option String
  description : Option String
  seniority_level : Option String
  employment_type : Option String
  job_function : Option String
  industries : Option String
  applicants : Option String
  company_url : Option String
  time_posted : Option String
  company_size : Option String
  founded : Option String
  company_type : Option String
  industry : Option String
  headquarters : Option String
deriving DecidableEq

/-- `JobPosting.is_empty` (job_posting.py lines 108-112): true when every
one of the six essential fields is `None`. -/
def is_empty (j : JobPosting) : Bool :=
  [j.title, j.company, j.location, j.date_posted, j.job_link, j.description].all
    Option.isNone

/-! ## Count-view parsing (`scrapers/job_list_scraper.py`) -/

/-- Helper of `extractNumbers`: walks the characters of a text, grouping
maximal digit runs into numbers, mirroring Python's
`re.findall(r'\d+', text)` followed by `int`.  `acc` holds the value of the
digit run currently being read. -/
def extractNumbersAux : List Char → Option Nat → List Nat
  | [], none => []
  | [], some n => [n]
  | c :: cs, acc =>
    if c.isDigit then
      extractNumbersAux cs (some ((acc.getD 0) * 10 + (c.toNat - 48)))
    else
      match acc with
      | none => extractNumbersAux cs none
      | some n => n :: extractNumbersAux cs none

/-- The numbers matched by `re.findall(r'\d+', text)` in
`JobListScraper._parse_total_jobs.extract_count` (job_list_scraper.py
lines 154-161), in order of appearance. -/
def extractNumbers (s : String) : List Nat :=
  extractNumbersAux s.toList none

/-- `extract_count` (job_list_scraper.py lines 154-161): an absent label
element yields 0; otherwise the last number found in the element's text,
defaulting to 0 when the text holds no number.  The element is modelled as
its text. -/
def extract_count : Option String → Nat
  | none => 0
  | some text =>
    match (extractNumbers text).getLast? with
    | some n => n
    | none => 0

/-- The count view of a search-results page: the texts of the four
`f_TPR-0` .. `f_TPR-3` label elements looked up by `_parse_total_jobs`
(job_list_scraper.py lines 149-152); `none` when the element is absent. -/
structure CountPage where
  total : Option String
  pastMonth : Option String
  pastWeek : Option String
  past24h : Option String

/-- `JobListScraper._parse_total_jobs` (job_list_scraper.py lines 136-170):
the `[total, past_month, past_week, past_24h]` counts of a parsed page. -/
def parse_total_jobs (p : CountPage) : List Nat :=
  [extract_count p.total, extract_count p.pastMonth,
   extract_count p.pastWeek, extract_count p.past24h]

/-- `JobListScraper.get_total_jobs` (job_list_scraper.py lines 172-190).
`fetch` is the request client's result for the count-view URL: `none` when
`make_request` exhausted its retries, otherwise the fetched page.  A failed
fetch yields the all-absent sentinel `[None, None, None, None]`. -/
def get_total_jobs (fetch : Option CountPage) : List (Option Nat) :=
  match fetch with
  | none => [none, none, none, none]
  | some p => (parse_total_jobs p).map some

/-! ## Paginated listing fetch (`scrapers/linkedin_scraper.py`) -/

/-- The loop-break test of `LinkedInScraper.scrape_all_jobs`
(linkedin_scraper.py line 77): `new_jobs.empty or
new_jobs['title'].isnull().all()`.  A page is the list of parsed job rows. -/
def pageExhausted (page : List JobPosting) : Bool :=
  page.isEmpty || page.all (fun j => j.title.isNone)

/-- Python's `range(start, stop, step)` for a positive `step`, as used by
the pagination loop `range(60, actual_limit, 10)`
(linkedin_scraper.py line 72). -/
def pyRange (start stop step : Nat) : List Nat :=
  List.range' start ((stop - start + step - 1) / step) step

/-- The pagination loop of `scrape_all_jobs` (linkedin_scraper.py
lines 72-81): fetch each offset in turn, breaking the first time a page is
empty or has every title null.  Returns the concatenated records and the
list of offsets actually fetched. -/
def paginate (fp : Nat → List JobPosting) : List Nat → List JobPosting × List Nat
  | [] => ([], [])
  | off :: rest =>
    let page := fp off
    if pageExhausted page then ([], [off])
    else
      let r := paginate fp rest
      (page ++ r.1, off :: r.2)

/-- `LinkedInScraper.scrape_all_jobs` (linkedin_scraper.py lines 40-89).
`totalCounts` is the `get_total_jobs` result; `fp off` is the page the
`get_job_list` call at offset `off` parses.  Returns the scraped records
(`none` when the count fetch failed, `total_jobs[0] is None`, or the
initial page at offset 0 was empty) paired with the offsets fetched. -/
def scrape_all_jobs (totalCounts : List (Option Nat)) (fp : Nat → List JobPosting)
    (limit : Nat) : Option (List JobPosting) × List Nat :=
  match totalCounts.getD 0 none with
  | none => (none, [])
  | some total =>
    let actual_limit := min total limit
    let jobs := fp 0
    if jobs.isEmpty then (none, [0])
    else
      let r := paginate fp (pyRange 60 actual_limit 10)
      (some (jobs ++ r.1), 0 :: r.2)

/-! ## Detail enrichment (`scrapers/job_details_scraper.py`,
`LinkedInScraper.scrape_all_job_details`) -/

/-- The single row `JobDetailsScraper._parse_response` builds
(job_details_scraper.py lines 92-102): nine optional string fields.  Every
successful fetch parses to exactly one such row, with `none` for each
element the page did not contain. -/
structure DetailRow where
  location : Option String
  seniority_level : Option String
  employment_type : Option String
  job_function : Option String
  industries : Option String
  applicants : Option String
  description : Option String
  time_posted : Option String
  company_url : Option String
deriving DecidableEq

/-- One input row of the CSV `scrape_all_job_details` reads
(linkedin_scraper.py lines 103-112): the discovery-stage fields. -/
structure InputRow where
  title : Option String
  company : Option String
  location : Option String
  date_posted : Option String
  job_link : Option String
deriving DecidableEq

/-- The `JobPosting` built at linkedin_scraper.py lines 122-136: row fields
merged with the fetched detail fields; company-enrichment fields stay
absent at this stage. -/
def buildDetailedJob (row : InputRow) (d : DetailRow) : JobPosting :=
  { title := row.title
    company := row.company
    location := row.location
    date_posted := row.date_posted
    job_link := row.job_link
    description := d.description
    seniority_level := d.seniority_level
    employment_type := d.employment_type
    job_function := d.job_function
    industries := d.industries
    applicants := d.applicants
    company_url := d.company_url
    time_posted := d.time_posted
    company_size := none
    founded := none
    company_type := none
    industry := none
    headquarters := none }

/-- The per-row body of the `scrape_all_job_details` loop
(linkedin_scraper.py lines 106-138).  `env url` is the
`JobDetailsScraper.get_job_details` result for `url`: `none` models the
empty DataFrame returned when the request client fails
(job_details_scraper.py lines 125-129); `some d` is the one-row parse of a
successful response.  A row without a job link is skipped (`continue`), a
failed fetch is skipped, and otherwise the enriched posting is kept. -/
def processRow (env : String → Option DetailRow) (row : InputRow) : Option JobPosting :=
  match row.job_link with
  | none => none
  | some url =>
    match env url with
    | none => none
    | some d => some (buildDetailedJob row d)

/-- `LinkedInScraper.scrape_all_job_details` (linkedin_scraper.py
lines 91-145): the persisted result table. -/
def scrape_all_job_details (env : String → Option DetailRow)
    (rows : List InputRow) : List JobPosting :=
  rows.filterMap (processRow env)

/-! ## Sorting helper

`pandas.DataFrame.sort_values(by=...)` is modelled as an insertion sort by a
boolean less-or-equal test (a correct comparison sort; the claims below do
not depend on the tie-breaking order). -/

/-- Insert `x` into a list sorted by `le`, before the first element it is
`le`-below-or-equal to. -/
def insertLe (le : α → α → Bool) (x : α) : List α → List α
  | [] => [x]
  | y :: ys => if le x y then x :: y :: ys else y :: insertLe le x ys

/-- Insertion sort by `le`. -/
def sortLe (le : α → α → Bool) : List α → List α
  | [] => []
  | x :: xs => insertLe le x (sortLe le xs)

/-- Lexicographic strict comparison of character lists by code point —
Python's `<` on strings, and the order pandas uses for `.max()` and
`sort_values` on a string column. -/
def charListLt : List Char → List Char → Bool
  | [], [] => false
  | [], _ :: _ => true
  | _ :: _, [] => false
  | a :: as, b :: bs =>
    if a.toNat < b.toNat then true
    else if b.toNat < a.toNat then false
    else charListLt as bs

/-- Lexicographic strict comparison of strings by code point. -/
def strLtb (a b : String) : Bool :=
  charListLt a.toList b.toList

/-- Larger of two strings under the lexicographic order. -/
def strMax (a b : String) : String :=
  if strLtb a b then b else a

/-! ## Time-series snapshot (`core/orchestrator.py`) -/

/-- One row of the per-title `TotalJobs.csv` time series built at
orchestrator.py lines 76-81.  The count columns come straight from the
`get_total_jobs` lists, so they stay optional. -/
structure CityRow where
  city : String
  jobs24h : Option Nat
  weekJobs : Option Nat
  monthJobs : Option Nat
  totalJobs : Option Nat
  date : String
deriving DecidableEq

/-- The per-city fetch loop of `ScrapingOrchestrator.create_city_comparison`
(orchestrator.py lines 62-71): call `get_total_jobs` for each city in turn
and return `none` as soon as one returns the all-`None` sentinel, otherwise
the collected count lists. -/
def collectCounts (fc : String → List (Option Nat)) : List String → Option (List (List (Option Nat)))
  | [] => some []
  | c :: rest =>
    if fc c = [none, none, none, none] then none
    else (collectCounts fc rest).map (fc c :: ·)

/-- `ScrapingOrchestrator.create_city_comparison` (orchestrator.py
lines 36-98).  `fc city` is the `get_total_jobs` result for the city;
`existing` is the current content of `TotalJobs.csv` (`none` when the file
does not exist).  Returns the DataFrame the method returns together with
the file content after the call: on the abort path nothing is written, so
the file keeps `existing`; on success the combined, date-sorted table is
both returned and persisted. -/
def create_city_comparison (fc : String → List (Option Nat)) (cities : List String)
    (today : String) (existing : Option (List CityRow)) :
    Option (List CityRow) × Option (List CityRow) :=
  match collectCounts fc cities with
  | none => (none, existing)
  | some counts =>
    let rows := (cities.zip counts).map fun p =>
      { city := p.1
        jobs24h := p.2.getD 3 none
        weekJobs := p.2.getD 2 none
        monthJobs := p.2.getD 1 none
        totalJobs := p.2.getD 0 none
        date := today : CityRow }
    let combined := sortLe (fun r1 r2 => !(strLtb r2.date r1.date))
      ((existing.getD []) ++ rows)
    (some combined, some combined)

/-! ## Dashboard latest view (`dashboard/dashboard_functions.py`) -/

/-- One row of the loaded time series as `find_latest_jobs_cities` sees it
after the column selection and rename (dashboard_functions.py lines 78-81):
Date, City and the chosen count column (optional: the cell may be NaN). -/
structure TSRow where
  date : String
  city : String
  jobs : Option Int
deriving DecidableEq

/-- One output row of `find_latest_jobs_cities` after the fillna/astype
steps (dashboard_functions.py lines 89-91): integer count and delta. -/
structure OutRow where
  date : String
  city : String
  jobs : Int
  delta : Int
deriving DecidableEq

/-- `df.groupby('City')['Total_Jobs'].diff()` within one city group
(dashboard_functions.py line 87): the first row's delta is NaN (`none`),
and a NaN neighbour makes the difference NaN. -/
def deltasOf : List (Option Int) → List (Option Int)
  | [] => []
  | v :: vs => none :: (List.zip vs (v :: vs)).map fun p =>
      match p.1, p.2 with
      | some a, some b => some (a - b)
      | _, _ => none

/-- `df['Date'].max()` over a list of rows: the lexicographically largest
date string. -/
def lexMaxDates (rows : List OutRow) : String :=
  (rows.map (·.date)).foldl strMax ""

/-- The pipeline of `find_latest_jobs_cities` before its final filter
(dashboard_functions.py lines 83-91): sort by Date descending, group by
City (pandas iterates groups in sorted key order), sort each group by Date
ascending, compute per-group deltas, then fill absent counts and deltas
with 0. -/
def processedRows (rows : List TSRow) : List OutRow :=
  let desc := sortLe (fun r1 r2 => !(strLtb r1.date r2.date)) rows
  let cities := sortLe (fun a b => !(strLtb b a)) ((rows.map (·.city)).dedup)
  let blocks := cities.map fun c =>
    sortLe (fun r1 r2 => !(strLtb r2.date r1.date)) (desc.filter (fun r => r.city = c))
  (blocks.map fun g =>
    (g.zip (deltasOf (g.map (·.jobs)))).map fun p =>
      { date := p.1.date
        city := p.1.city
        jobs := p.1.jobs.getD 0
        delta := p.2.getD 0 : OutRow }).flatten

/-- `find_latest_jobs_cities` (dashboard_functions.py lines 52-96), from the
loaded and column-selected table onward: process, then keep only the rows
whose Date equals the maximum date string
(`df = df[df['Date'] == df['Date'].max()]`, line 94). -/
def find_latest_jobs_cities (rows : List TSRow) : List OutRow :=
  let p := processedRows rows
  p.filter (fun r => r.date = lexMaxDates p)

/-! ## Concrete sample data used by witnesses and counterexamples -/

/-- Concrete one-job page used by the pagination witnesses. -/
def exJob : JobPosting :=
  ⟨some "Engineer", none, none, none, none, none, none, none, none,
   none, none, none, none, none, none, none, none, none⟩

/-- Concrete page environment for the pagination witnesses: every offset
parses to one titled job, except offset 70 whose page is empty. -/
def exFp : Nat → List JobPosting :=
  fun off => if off = 70 then [] else [exJob]

/-- Concrete pre-existing time-series row used by the snapshot-abort
witness. -/
def exCityRow : CityRow := ⟨"Toronto", some 5, some 10, some 20, some 100, "2024-01-04"⟩

/-- The one-row parse of a successful detail fetch whose page contained
nothing extractable: all nine fields absent. -/
def allNoneDetails : DetailRow := ⟨none, none, none, none, none, none, none, none, none⟩

/-- Concrete discovery-stage input row with a job link, used by the
enrichment counterexample. -/
def exInputRow : InputRow :=
  ⟨some "Engineer", some "Acme", some "Ottawa", some "2024-06-01", some "https://jobs.example/1"⟩

/-! ## Theorems: resilient request client -/

/-- Unfolding of `make_request` on a trial whose attempt yields a response:
the three `handle_response` classifications drive return, recursion, or
exhaustion. -/
theorem make_request_eq_resp (env : Nat → ReqOutcome) (mr bd rld t s : Nat)
    (h : env t = .resp s) :
    make_request env mr bd rld t =
      if (handle_response mr bd rld s t).1 = some true then (some s, 1)
      else if (handle_response mr bd rld s t).1 = some false then
        ((make_request env mr bd rld (t + 1)).1, (make_request env mr bd rld (t + 1)).2 + 1)
      else (none, 1) := by
  rw [make_request, h]
  split
  next s' heq =>
    injection heq with hs
    subst hs
    split
    next snd heq2 => simp [heq2]
    next snd heq2 => simp [heq2]
    next snd heq2 => simp [heq2]
  next heq => exact absurd heq (by simp)

/-- Unfolding of `make_request` on a trial whose attempt raises a network
exception: retry while `current_trial < max_retries`, else give up. -/
theorem make_request_eq_exc (env : Nat → ReqOutcome) (mr bd rld t : Nat)
    (h : env t = .exc) :
    make_request env mr bd rld t =
      if t < mr then
        ((make_request env mr bd rld (t + 1)).1, (make_request env mr bd rld (t + 1)).2 + 1)
      else (none, 1) := by
  rw [make_request, h]
  split
  next heq => exact absurd heq (by simp)
  next heq => by_cases hlt : t < mr <;> simp [hlt]

/-- C1: for every request whose response has status ≠ 200 at
trial = max_retries, `make_request` returns the exhausted-failure value
`none`, not the response.  (No exception can reach the caller: the
embedding is a total function into `Option`.) -/
theorem make_request_exhausted_at_max_retries (env : Nat → ReqOutcome) (mr bd rld s : Nat)
    (h1 : env mr = .resp s) (h2 : s ≠ 200) :
    (make_request env mr bd rld mr).1 = none := by
  rw [make_request_eq_resp env mr bd rld mr s h1]
  rw [if_neg (by simp [handle_response, h2]), if_neg (by simp [handle_response, h2])]

/-- Witness for C1: five max retries, every attempt answering status 500;
the call at trial 5 returns `none`. -/
theorem make_request_exhausted_at_max_retries_witness :
    (make_request (fun _ => .resp 500) 5 5 15 5).1 = none :=
  make_request_exhausted_at_max_retries (fun _ => .resp 500) 5 5 15 500 rfl (by decide)

/-- C2: for every trial `t` with `0 < t < max_retries`, a 429 response makes
the client sleep exactly `rate_limit_delay * t` before retrying, and every
other non-200 status makes it sleep exactly `base_delay * t`. -/
theorem handle_response_linear_backoff (mr bd rld t : Nat) (h1 : 0 < t) (h2 : t < mr) :
    handle_response mr bd rld 429 t = (some false, [rld * t]) ∧
    ∀ s, s ≠ 200 → s ≠ 429 → handle_response mr bd rld s t = (some false, [bd * t]) := by
  have _hpos := h1
  constructor
  · simp [handle_response, h2]
  · intro s hs200 hs429
    simp [handle_response, hs200, hs429, h2]

/-- Witness for C2: with the default configuration (5 retries, base delay 5,
rate-limit delay 15) at trial 2, a 429 sleeps 30 seconds and a 404 sleeps
10 seconds. -/
theorem handle_response_linear_backoff_witness :
    handle_response 5 5 15 429 2 = (some false, [30]) ∧
    handle_response 5 5 15 404 2 = (some false, [10]) :=
  ⟨(handle_response_linear_backoff 5 5 15 2 (by decide) (by decide)).1,
   (handle_response_linear_backoff 5 5 15 2 (by decide) (by decide)).2 404 (by decide) (by decide)⟩

/-- Bounding lemma for C9: from any starting trial `t`, `make_request`
performs at most `max 1 (max_retries + 1 - t)` HTTP attempts. -/
theorem attempts_le_aux (env : Nat → ReqOutcome) (mr bd rld : Nat) :
    ∀ k t, mr + 1 - t ≤ k → (make_request env mr bd rld t).2 ≤ max 1 (mr + 1 - t) := by
  intro k
  induction k with
  | zero =>
    intro t ht
    have hge : ¬ t < mr := by omega
    cases henv : env t with
    | resp s =>
      rw [make_request_eq_resp env mr bd rld t s henv]
      by_cases h200 : s = 200
      · rw [if_pos (by simp [handle_response, h200])]
        exact Nat.le_max_left 1 _
      · rw [if_neg (by simp [handle_response, h200, hge]),
            if_neg (by simp [handle_response, h200, hge])]
        exact Nat.le_max_left 1 _
    | exc =>
      rw [make_request_eq_exc env mr bd rld t henv, if_neg hge]
      exact Nat.le_max_left 1 _
  | succ k ih =>
    intro t ht
    cases henv : env t with
    | resp s =>
      rw [make_request_eq_resp env mr bd rld t s henv]
      by_cases h200 : s = 200
      · rw [if_pos (by simp [handle_response, h200])]
        exact Nat.le_max_left 1 _
      · by_cases hlt : t < mr
        · have hsf : (handle_response mr bd rld s t).1 = some false := by
            by_cases h429 : s = 429 <;> simp [handle_response, h200, hlt, h429]
          rw [if_neg (by simp [hsf]), if_pos hsf]
          have h3 := ih (t + 1) (by omega)
          rw [Nat.max_eq_right (by omega : (1 : Nat) ≤ mr + 1 - (t + 1))] at h3
          rw [Nat.max_eq_right (by omega : (1 : Nat) ≤ mr + 1 - t)]
          dsimp only
          omega
        · rw [if_neg (by simp [handle_response, h200, hlt]),
              if_neg (by simp [handle_response, h200, hlt])]
          exact Nat.le_max_left 1 _
    | exc =>
      rw [make_request_eq_exc env mr bd rld t henv]
      by_cases hlt : t < mr
      · rw [if_pos hlt]
        have h3 := ih (t + 1) (by omega)
        rw [Nat.max_eq_right (by omega : (1 : Nat) ≤ mr + 1 - (t + 1))] at h3
        rw [Nat.max_eq_right (by omega : (1 : Nat) ≤ mr + 1 - t)]
        dsimp only
        omega
      · rw [if_neg hlt]
        exact Nat.le_max_left 1 _

/-- C9: for every sequence of responses and network exceptions,
`make_request` terminates (it is a total function) and a call starting at
trial 0 performs at most `max_retries + 1` HTTP attempts: every retry path
recurses with `current_trial + 1` and both the non-200 and the exception
branch stop recursing once `current_trial` reaches `max_retries`. -/
theorem make_request_attempts_bounded :
    ∀ (env : Nat → ReqOutcome) (mr bd rld : Nat),
    (make_request env mr bd rld 0).2 ≤ mr + 1 := by
  intro env mr bd rld
  have h := attempts_le_aux env mr bd rld (mr + 1) 0 (by omega)
  rwa [Nat.sub_zero, Nat.max_eq_right (by omega : (1 : Nat) ≤ mr + 1)] at h

/-! ## Theorems: paginated listing fetch -/

/-- The pagination loop over a single offset always fetches exactly that
offset, whether or not its page is exhausted. -/
theorem paginate_singleton_offsets (fp : Nat → List JobPosting) (o : Nat) :
    (paginate fp [o]).2 = [o] := by
  by_cases h : pageExhausted (fp o) <;> simp [paginate, h]

/-- The pagination loop concatenates every page before the first exhausted
offset, fetches that offset, and stops there. -/
theorem paginate_stops_at_exhausted (fp : Nat → List JobPosting) :
    ∀ (pre : List Nat) (o : Nat) (post : List Nat),
    (∀ x ∈ pre, pageExhausted (fp x) = false) → pageExhausted (fp o) = true →
    paginate fp (pre ++ o :: post) = ((pre.map fp).flatten, pre ++ [o]) := by
  intro pre
  induction pre with
  | nil =>
    intro o post _ ho
    simp [paginate, ho]
  | cons a l ih =>
    intro o post hpre ho
    have ha : pageExhausted (fp a) = false := hpre a (by simp)
    rw [List.cons_append]
    simp only [paginate, ha, Bool.false_eq_true, if_false]
    rw [ih o post (fun x hx => hpre x (by simp [hx])) ho]
    simp

/-- C3: with a count fetch reporting total = 75 and a caller limit of 100,
`scrape_all_jobs` computes the effective limit `min 75 100 = 75`, the
continuation offsets are `range(60, 75, 10) = [60, 70]` (stopping before 80
since 80 ≥ 75), and exactly three page fetches happen: offsets 0, 60, 70. -/
theorem scrape_all_jobs_pagination_window (fp : Nat → List JobPosting) (m w d : Option Nat)
    (h0 : (fp 0).isEmpty = false) (h60 : pageExhausted (fp 60) = false) :
    pyRange 60 (min 75 100) 10 = [60, 70] ∧
    (scrape_all_jobs [some 75, m, w, d] fp 100).2 = [0, 60, 70] := by
  constructor
  · decide
  · have hrange : pyRange 60 (min 75 100) 10 = [60, 70] := by decide
    simp only [scrape_all_jobs, List.getD_cons_zero, h0, Bool.false_eq_true, if_false]
    rw [show min 75 100 = 75 from rfl] at hrange ⊢
    rw [hrange]
    simp only [paginate, h60, Bool.false_eq_true, if_false]
    by_cases h70 : pageExhausted (fp 70) = true <;> simp [paginate, h70]

/-- Witness for C3: a page environment whose pages at 0 and 60 are
non-empty titled pages; the run fetches offsets 0, 60, 70 only. -/
theorem scrape_all_jobs_pagination_window_witness :
    pyRange 60 (min 75 100) 10 = [60, 70] ∧
    (scrape_all_jobs [some 75, some 30, some 10, some 2] exFp 100).2 = [0, 60, 70] :=
  scrape_all_jobs_pagination_window exFp (some 30) (some 10) (some 2) (by decide) (by decide)

/-- C4: in every pagination run, if the page at some continuation offset is
empty or has every title absent, `scrape_all_jobs` stops immediately: it
returns the initial page plus only the pages gathered at the earlier
continuation offsets, and fetches nothing past the exhausted offset, even
when the effective limit has not been reached. -/
theorem scrape_all_jobs_stops_on_exhausted_page (fp : Nat → List JobPosting)
    (total limit : Nat) (m w d : Option Nat) (pre : List Nat) (o : Nat) (post : List Nat)
    (hrange : pyRange 60 (min total limit) 10 = pre ++ o :: post)
    (h0 : (fp 0).isEmpty = false)
    (hpre : ∀ x ∈ pre, pageExhausted (fp x) = false)
    (ho : pageExhausted (fp o) = true) :
    scrape_all_jobs [some total, m, w, d] fp limit =
      (some (fp 0 ++ (pre.map fp).flatten), 0 :: (pre ++ [o])) := by
  simp only [scrape_all_jobs, List.getD_cons_zero, h0, Bool.false_eq_true, if_false]
  rw [hrange, paginate_stops_at_exhausted fp pre o post hpre ho]

/-- Witness for C4: total 100, limit 100 (so offsets 60, 70, 80, 90 were
scheduled), with an empty page at offset 70: the run returns only the
records through offset 60 and never fetches 80 or 90. -/
theorem scrape_all_jobs_stops_on_exhausted_page_witness :
    scrape_all_jobs [some 100, none, none, none] exFp 100 =
      (some (exFp 0 ++ ([60].map exFp).flatten), 0 :: ([60] ++ [70])) :=
  scrape_all_jobs_stops_on_exhausted_page exFp 100 100 none none none [60] 70 [80, 90]
    (by decide) (by decide) (by decide) (by decide)

/-! ## Theorems: time-series snapshot -/

/-- A sentinel result for any city of the list makes the per-city fetch
loop abort with `none`. -/
theorem collectCounts_none (fc : String → List (Option Nat)) :
    ∀ (cities : List String) (c : String), c ∈ cities →
    fc c = [none, none, none, none] → collectCounts fc cities = none := by
  intro cities
  induction cities with
  | nil => intro c hc; exact absurd hc (by simp)
  | cons a l ih =>
    intro c hc hs
    rcases List.mem_cons.mp hc with h | h
    · subst h
      simp [collectCounts, hs]
    · by_cases ha : fc a = [none, none, none, none]
      · simp [collectCounts, ha]
      · simp [collectCounts, ha, ih c h hs]

/-- C5: if any city's count fetch returns the all-absent sentinel
`[None, None, None, None]`, `create_city_comparison` returns `none` — no
table at all, not a table with the successful cities' rows — and persists
nothing: the time-series file keeps its previous content. -/
theorem create_city_comparison_aborts (fc : String → List (Option Nat))
    (cities : List String) (today : String) (existing : Option (List CityRow))
    (c : String) (hc : c ∈ cities) (hs : fc c = [none, none, none, none]) :
    create_city_comparison fc cities today existing = (none, existing) := by
  unfold create_city_comparison
  rw [collectCounts_none fc cities c hc hs]

/-- Witness for C5: three cities where the second one's count fetch is
exhausted; the call returns no table and the existing file row survives
untouched. -/
theorem create_city_comparison_aborts_witness :
    create_city_comparison
        (fun city => if city = "Ottawa" then [none, none, none, none]
          else [some 80, some 20, some 9, some 1])
        ["Toronto", "Ottawa", "Montreal"] "2024-01-05" (some [exCityRow]) =
      (none, some [exCityRow]) :=
  create_city_comparison_aborts _ _ _ _ "Ottawa" (by decide) (by decide)

/-! ## Theorems: detail enrichment -/

/-- Counterexample to C6: an enrichment fetch that succeeds at the request
level but parses to nothing (all nine detail fields absent, in particular
no description) does NOT drop the record — the row is retained in the
output with absent enrichment data, because `_parse_response` always
produces a one-row table, which is never `.empty`. -/
theorem scrape_all_job_details_keeps_unparseable :
    scrape_all_job_details (fun _ => some allNoneDetails) [exInputRow] =
      [buildDetailedJob exInputRow allNoneDetails] ∧
    (buildDetailedJob exInputRow allNoneDetails).description = none ∧
    (buildDetailedJob exInputRow allNoneDetails).seniority_level = none :=
  ⟨rfl, rfl, rfl⟩

/-- C6 (amended): in `scrape_all_job_details` a record is dropped from the
output exactly when its `job_link` is absent or the enrichment fetch fails
at the request-client level; a successful fetch is always retained (even
when nothing was parseable).  Output length never exceeds input length, so
callers must not assume they are equal. -/
theorem scrape_all_job_details_drop_policy :
    (∀ (env : String → Option DetailRow) (rows : List InputRow),
      (scrape_all_job_details env rows).length ≤ rows.length) ∧
    (∀ (env : String → Option DetailRow) (rows : List InputRow),
      scrape_all_job_details env rows = rows.filterMap (processRow env)) ∧
    (∀ (env : String → Option DetailRow) (r : InputRow),
      processRow env r = none ↔
        r.job_link = none ∨ ∃ url, r.job_link = some url ∧ env url = none) := by
  refine ⟨?_, fun _ _ => rfl, ?_⟩
  · intro env rows
    exact List.length_filterMap_le _ _
  · intro env r
    cases hl : r.job_link with
    | none => simp [processRow, hl]
    | some url =>
      cases he : env url with
      | none => simp [processRow, hl, he]
      | some d => simp [processRow, hl, he]

/-! ## Theorems: job posting record -/

/-- C7: `is_empty` is true iff all six essential fields — title, company,
location, date_posted, job_link, description — are absent; it is false as
soon as any one of them is present, whatever the other twelve fields hold. -/
theorem is_empty_iff_essentials_absent :
    ∀ j : JobPosting, is_empty j = true ↔
      (j.title = none ∧ j.company = none ∧ j.location = none ∧
       j.date_posted = none ∧ j.job_link = none ∧ j.description = none) := by
  intro j
  simp [is_empty, Option.isNone_iff_eq_none]

/-! ## Theorems: count fetch sentinel -/

/-- C10: `get_total_jobs` returns the all-absent sentinel iff the request
client returned the exhausted-failure value; every successful response
yields four present counts, and a count whose label element is absent or
whose text holds no number defaults to 0 rather than triggering the
sentinel. -/
theorem get_total_jobs_sentinel_iff :
    (∀ fetch : Option CountPage,
      get_total_jobs fetch = [none, none, none, none] ↔ fetch = none) ∧
    (∀ p : CountPage, get_total_jobs (some p) =
      [some (extract_count p.total), some (extract_count p.pastMonth),
       some (extract_count p.pastWeek), some (extract_count p.past24h)]) ∧
    extract_count none = 0 ∧
    (∀ s : String, extractNumbers s = [] → extract_count (some s) = 0) := by
  refine ⟨?_, fun p => rfl, rfl, ?_⟩
  · intro fetch
    cases fetch with
    | none => simp [get_total_jobs]
    | some p => simp [get_total_jobs, parse_total_jobs]
  · intro s hs
    simp [extract_count, hs]

/-! ## Theorems: dashboard latest view -/

/-- The lexicographic comparison never puts a list below itself. -/
theorem charListLt_irrefl : ∀ l : List Char, charListLt l l = false := by
  intro l
  induction l with
  | nil => rfl
  | cons a as ih => simp [charListLt, ih]

/-- The lexicographic comparison is asymmetric. -/
theorem charListLt_asymm : ∀ x y : List Char, charListLt x y = true → charListLt y x = false := by
  intro x
  induction x with
  | nil =>
    intro y hxy
    cases y with
    | nil => simp [charListLt] at hxy
    | cons b bs => rfl
  | cons a as ih =>
    intro y hxy
    cases y with
    | nil => simp [charListLt] at hxy
    | cons b bs =>
      by_cases hab : a.toNat < b.toNat
      · have hba : ¬ b.toNat < a.toNat := by omega
        simp [charListLt, hba, hab]
      · by_cases hba : b.toNat < a.toNat
        · simp [charListLt, hab, hba] at hxy
        · simp [charListLt, hab, hba] at hxy ⊢
          exact ih bs hxy

/-- The complement of the lexicographic comparison is transitive. -/
theorem charListLt_false_trans :
    ∀ x y z : List Char, charListLt x y = false → charListLt y z = false →
    charListLt x z = false := by
  intro x
  induction x with
  | nil =>
    intro y z hxy hyz
    cases y with
    | nil => exact hyz
    | cons b bs => simp [charListLt] at hxy
  | cons a as ih =>
    intro y z hxy hyz
    cases z with
    | nil => rfl
    | cons c cs =>
      cases y with
      | nil => simp [charListLt] at hyz
      | cons b bs =>
        by_cases hab : a.toNat < b.toNat
        · simp [charListLt, hab] at hxy
        · by_cases hbc : b.toNat < c.toNat
          · simp [charListLt, hbc] at hyz
          · by_cases hac : a.toNat < c.toNat
            · exact absurd hac (by omega)
            · by_cases hca : c.toNat < a.toNat
              · simp [charListLt, hac, hca]
              · have hba : ¬ b.toNat < a.toNat := by omega
                have hcb : ¬ c.toNat < b.toNat := by omega
                simp [charListLt, hab, hba] at hxy
                simp [charListLt, hbc, hcb] at hyz
                simp [charListLt, hac, hca]
                exact ih bs cs hxy hyz

/-- A string is never lexicographically below itself. -/
theorem strLtb_irrefl (a : String) : strLtb a a = false :=
  charListLt_irrefl a.toList

/-- Not-below is transitive on strings. -/
theorem strLtb_false_trans (a b c : String) (hab : strLtb a b = false)
    (hbc : strLtb b c = false) : strLtb a c = false :=
  charListLt_false_trans a.toList b.toList c.toList hab hbc

/-- The two-string maximum is not below its left argument. -/
theorem strMax_not_lt_left (a b : String) : strLtb (strMax a b) a = false := by
  unfold strMax
  by_cases h : strLtb a b
  · simp only [h, if_true]
    exact charListLt_asymm a.toList b.toList h
  · simp only [h, if_false]
    exact strLtb_irrefl a

/-- The two-string maximum is not below its right argument. -/
theorem strMax_not_lt_right (a b : String) : strLtb (strMax a b) b = false := by
  unfold strMax
  by_cases h : strLtb a b
  · simp only [h, if_true]
    exact strLtb_irrefl b
  · simp only [h, if_false]
    exact Bool.eq_false_iff.mpr h

/-- Folding `strMax` dominates the seed and every list element. -/
theorem foldl_strMax_not_lt (l : List String) :
    ∀ a : String, strLtb (l.foldl strMax a) a = false ∧
      ∀ x ∈ l, strLtb (l.foldl strMax a) x = false := by
  induction l with
  | nil =>
    intro a
    exact ⟨strLtb_irrefl a, by simp⟩
  | cons b l ih =>
    intro a
    have h := ih (strMax a b)
    rw [List.foldl_cons]
    refine ⟨strLtb_false_trans _ _ _ h.1 (strMax_not_lt_left a b), ?_⟩
    intro x hx
    rcases List.mem_cons.mp hx with hxb | hxl
    · subst hxb
      exact strLtb_false_trans _ _ _ h.1 (strMax_not_lt_right a x)
    · exact h.2 x hxl

/-- C8: `find_latest_jobs_cities` keeps exactly the processed rows whose
Date equals the maximum date string, where the maximum is taken under the
lexicographic string order (no processed row's date is above it); for the
fixed-width dates 2024-01-05 and 2024-01-20 of one city it selects the row
dated 2024-01-20 (with its delta 130 - 100 = 30). -/
theorem find_latest_filters_to_max_date :
    (∀ (rows : List TSRow) (r : OutRow),
      r ∈ find_latest_jobs_cities rows ↔
        r ∈ processedRows rows ∧ r.date = lexMaxDates (processedRows rows)) ∧
    (∀ (rows : List TSRow) (r : OutRow), r ∈ processedRows rows →
      strLtb (lexMaxDates (processedRows rows)) r.date = false) ∧
    find_latest_jobs_cities
        [⟨"2024-01-05", "A", some 100⟩, ⟨"2024-01-20", "A", some 130⟩] =
      [⟨"2024-01-20", "A", 130, 30⟩] := by
  refine ⟨?_, ?_, by decide⟩
  · intro rows r
    simp [find_latest_jobs_cities, List.mem_filter]
  · intro rows r hr
    exact (foldl_strMax_not_lt ((processedRows rows).map (·.date)) "").2 r.date
      (List.mem_map_of_mem _ hr)
